import Mathlib

/-!
Verification development for the generational evacuation and balancing engine
of the Shenandoah generational heap (`shenandoahGenerationalHeap.cpp`).

The C++ source is shallowly embedded: machine `size_t` arithmetic is modelled
with `Nat` (the embedded paths never underflow under the invariants asserted by
the source, which appear here as explicit hypotheses where they matter),
signed region balances with `Int`, and heap addresses with `Nat`. External
collaborators (the shared allocator, the forwarding CAS, the card scanner,
mark words) are modelled as oracle fields of an environment record or, where a
claim depends on their semantics, as definitions modelled from the spec and
marked as such in their doc comments.
-/

namespace ShenGen

/-- Generation affiliation of a heap region, mirroring `ShenandoahAffiliation`
(only the two cases used by the embedded code paths, plus FREE for regions). -/
inductive Affiliation where
  | FREE_REGION
  | YOUNG_GENERATION
  | OLD_GENERATION
deriving DecidableEq, Repr

open Affiliation

/-- The `align_up(x, a)` utility for a positive alignment `a`: round `x` up to
the next multiple of `a` (agrees with HotSpot's power-of-two bit trick). -/
def alignUp (a x : Nat) : Nat := ((x + a - 1) / a) * a

/-! ## Generation balancer: `compute_old_generation_balance` -/

/-- Inputs read by `ShenandoahGenerationalHeap::compute_old_generation_balance`
(lines 571-658). The two floating-point waste multiplications
`(size_t)(unprocessed_collection_candidates_live_memory() * ShenandoahOldEvacWaste)`
and `(size_t)(promo_load * ShenandoahPromoEvacWaste)` are abstracted as the
pre-scaled inputs `candidatesLiveMemoryScaled` and `promoLoadScaled`; the
claims settled here do not depend on their values. -/
structure BalanceInputs where
  /-- old_generation()->available() -/
  oldAvailable : Nat
  /-- young_generation()->max_capacity() -/
  youngMaxCapacity : Nat
  /-- ShenandoahEvacReserve (a percentage) -/
  evacReservePercent : Nat
  /-- ShenandoahOldEvacRatioPercent (asserted at most 100 by the source) -/
  oldEvacRatioPercent : Nat
  /-- old_generation()->has_unprocessed_collection_candidates() -/
  hasUnprocessedCandidates : Bool
  /-- (size_t)(unprocessed_collection_candidates_live_memory() * ShenandoahOldEvacWaste) -/
  candidatesLiveMemoryScaled : Nat
  /-- old_generation()->free_unaffiliated_regions() -/
  freeUnaffiliatedRegions : Nat
  /-- old_generation()->get_promotion_potential() -/
  promoLoad : Nat
  /-- (size_t)(promo_load * ShenandoahPromoEvacWaste) -/
  promoLoadScaled : Nat
  /-- ShenandoahHeapRegion::region_size_bytes() -/
  regionSizeBytes : Nat
deriving Repr

/-- The `young_reserve` local of `compute_old_generation_balance` (line 593):
the free set will reserve this amount of memory to hold young evacuations. -/
def youngReserveOf (inp : BalanceInputs) : Nat :=
  (inp.youngMaxCapacity * inp.evacReservePercent) / 100

/-- The `max_old_reserve` local (lines 597-600): when the ratio is 100 the
bound is `old_available + old_xfer_limit + young_reserve`, else the derived
`young_reserve * ratio / (100 - ratio)` clamped by that bound. -/
def maxOldReserveOf (inp : BalanceInputs) (oldXferLimit : Nat) : Nat :=
  let youngReserve := youngReserveOf inp
  let boundOnOldReserve := inp.oldAvailable + oldXferLimit + youngReserve
  if inp.oldEvacRatioPercent = 100 then boundOnOldReserve
  else min ((youngReserve * inp.oldEvacRatioPercent) / (100 - inp.oldEvacRatioPercent))
           boundOnOldReserve

/-- The `reserve_for_mixed` local (lines 605-619): evacuation need for
unprocessed collection candidates plus fragmented old space, clamped by
`max_old_reserve`. -/
def reserveForMixedOf (inp : BalanceInputs) (oldXferLimit : Nat) : Nat :=
  let maxOldReserve := maxOldReserveOf inp oldXferLimit
  if inp.hasUnprocessedCandidates then
    let maxEvacNeed := inp.candidatesLiveMemoryScaled
    let oldFragmentedAvailable :=
      inp.oldAvailable - inp.freeUnaffiliatedRegions * inp.regionSizeBytes
    let r := maxEvacNeed + oldFragmentedAvailable
    if r > maxOldReserve then maxOldReserve else r
  else 0

/-- The `reserve_for_promo` local (lines 622-630): the scaled promotion load,
clamped by the headroom left under `max_old_reserve` after the mixed
reserve. -/
def reserveForPromoOf (inp : BalanceInputs) (oldXferLimit : Nat) : Nat :=
  if inp.promoLoad > 0 then
    let availableForPromotions :=
      maxOldReserveOf inp oldXferLimit - reserveForMixedOf inp oldXferLimit
    min inp.promoLoadScaled availableForPromotions
  else 0

/-- The `old_reserve` local (line 633): the total old reserve we ideally
want. -/
def oldReserveOf (inp : BalanceInputs) (oldXferLimit : Nat) : Nat :=
  reserveForMixedOf inp oldXferLimit + reserveForPromoOf inp oldXferLimit

/-- Embedding of `ShenandoahGenerationalHeap::compute_old_generation_balance`
(lines 571-658). Returns the signed region balance that the source stores via
`old_generation()->set_region_balance(...)`: positive is a surplus transferred
to young, negative a deficit transferred from young to old. -/
def computeOldGenerationBalance (inp : BalanceInputs)
    (oldXferLimit oldCsetRegions : Nat) : Int :=
  let oldReserve := oldReserveOf inp oldXferLimit
  let regionSizeBytes := inp.regionSizeBytes
  let maxOldAvailable := inp.oldAvailable + oldCsetRegions * regionSizeBytes
  if maxOldAvailable ≥ oldReserve then
    let oldSurplus := (maxOldAvailable - oldReserve) / regionSizeBytes
    let unaffiliatedOldRegions := inp.freeUnaffiliatedRegions + oldCsetRegions
    let oldRegionSurplus := min oldSurplus unaffiliatedOldRegions
    Int.ofNat oldRegionSurplus
  else
    let oldNeed := (oldReserve - maxOldAvailable + regionSizeBytes - 1) / regionSizeBytes
    let maxOldRegionXfer := oldXferLimit / regionSizeBytes
    let oldRegionDeficit := min oldNeed maxOldRegionXfer
    0 - Int.ofNat oldRegionDeficit

/-! ## Allocation buffers (PLABs) and thread-local GC data -/

/-- Modelled from the spec: the `PLAB` class (`gc/shared/plab.hpp`) is part of
the repository but not under src/; the spec describes an allocation buffer as a
"thread-local, card-size-aligned span used to bump-allocate" with attributes
"base, remaining words, actual size". We keep the allocation pointer `top`,
the remaining word count, and the accumulated waste. -/
structure PLABState where
  /-- current allocation pointer (plab->top()); none when no buffer is set -/
  top : Option Nat
  /-- plab->words_remaining() -/
  wordsRemaining : Nat
  /-- plab->waste() -/
  waste : Nat
deriving DecidableEq, Repr

/-- Modelled from the spec: `PLAB::allocate(size)` bump-allocates `size` words
from the buffer, returning the old allocation pointer, or fails when the
remaining words cannot hold the request. -/
def plabAllocate (p : PLABState) (size : Nat) : Option Nat × PLABState :=
  match p.top with
  | some t =>
    if size ≤ p.wordsRemaining then
      (some t, { p with top := some (t + size), wordsRemaining := p.wordsRemaining - size })
    else (none, p)
  | none => (none, p)

/-- Modelled from the spec: `PLAB::undo_allocation` rolls the buffer's
allocation pointer back so the space is reusable (spec scenario: the losing
thread's "buffer's remaining-words count increases by" the object size). -/
def plabUndoAllocation (p : PLABState) (size : Nat) : PLABState :=
  { p with top := p.top.map (fun t => t - size),
           wordsRemaining := p.wordsRemaining + size }

/-- Modelled from the spec: `PLAB::retire()` "overwrites unused memory between
plab->top() and plab->hard_end() with a dummy object" and "adds the size of
this unused memory, in words, to plab->waste()" (source comment, lines
521-522). -/
def plabRetire (p : PLABState) : PLABState :=
  { p with wordsRemaining := 0, waste := p.waste + p.wordsRemaining }

/-- Modelled from the spec: `PLAB::set_buf(buf, actual_size)` installs a fresh
buffer span. -/
def plabSetBuf (p : PLABState) (buf actualSize : Nat) : PLABState :=
  { p with top := some buf, wordsRemaining := actualSize }

/-- The `ShenandoahThreadLocalData` fields read and written by the embedded
code paths, together with the thread's GCLAB and PLAB bump state. -/
structure ThreadLocalData where
  /-- ShenandoahThreadLocalData::is_oom_during_evac(thread) -/
  oomDuringEvac : Bool
  /-- ShenandoahThreadLocalData::gclab_size(thread) -/
  gclabSize : Nat
  /-- the thread's GCLAB bump state (used by undo_allocation on race loss) -/
  gclab : PLABState
  /-- ShenandoahThreadLocalData::plab(thread); none models a null PLAB pointer -/
  plab : Option PLABState
  /-- ShenandoahThreadLocalData::plab_size(thread), the preferred-size heuristic -/
  plabSize : Nat
  /-- ShenandoahThreadLocalData::plab_retries_enabled(thread) -/
  plabRetriesEnabled : Bool
  /-- ShenandoahThreadLocalData::allow_plab_promotions(thread) -/
  allowPlabPromotions : Bool
  /-- ShenandoahThreadLocalData::get_plab_promoted(thread), in bytes -/
  plabPromoted : Nat
  /-- ShenandoahThreadLocalData::get_plab_actual_size(thread), in bytes -/
  plabActualSize : Nat
deriving DecidableEq, Repr

/-- The old-generation accounting state touched by the embedded code paths. -/
structure OldGenState where
  /-- total bytes returned through old_generation()->unexpend_promoted(...) -/
  unexpendedPromoted : Nat
  /-- number of old_generation()->handle_failed_promotion(...) calls -/
  failedPromotionCount : Nat
  /-- set by old_generation()->handle_failed_evacuation() -/
  failedEvacuation : Bool
  /-- set by old_generation()->handle_failed_transfer() -/
  failedTransfer : Bool
  /-- old_generation()->is_parseable() -/
  parseable : Bool
  /-- old_generation()->get_region_balance() (signed) -/
  regionBalance : Int
  /-- old_generation()->set_evacuation_reserve(...) -/
  evacuationReserve : Nat
  /-- old_generation()->set_promoted_reserve(...) -/
  promotedReserve : Nat
  /-- number of old_generation()->handle_evacuation(...) calls -/
  handledEvacuations : Nat
deriving DecidableEq, Repr

/-- Heap-level configuration constants consumed by the embedded paths. -/
structure HeapConfig where
  /-- CardTable::card_size_in_words() -/
  cardSizeInWords : Nat
  /-- PLAB::min_size() (the raw, unaligned minimum) -/
  plabMinSizeRaw : Nat
  /-- plab_max_size() = calculate_max_plab() (depends on external globals) -/
  plabMaxSize : Nat
  /-- HeapWordSize (bytes per heap word) -/
  heapWordSize : Nat
  /-- the UseTLAB global -/
  useTLAB : Bool
  /-- age_census()->tenuring_threshold() -/
  tenuringThreshold : Nat
deriving Repr

/-- Embedding of `ShenandoahGenerationalHeap::calculate_min_plab` (line 86-88):
`align_up(PLAB::min_size(), CardTable::card_size_in_words())`. This is the
value returned by `plab_min_size()`. -/
def plabMinSize (cfg : HeapConfig) : Nat :=
  alignUp cfg.cardSizeInWords cfg.plabMinSizeRaw

/-- External oracles for a single evacuation call: the shared allocator, the
GCLAB allocator, the barrier set's forwarding resolution, and heap predicates
that live outside src/. -/
structure EvacEnv where
  /-- ShenandoahHeap::allocate_from_gclab(thread, size), abstracted as a
  function of the thread's current desired gclab size and the request size -/
  gclabAlloc : Nat → Nat → Option Nat
  /-- allocate_memory(ShenandoahAllocRequest::for_shared_gc(size, gen, promo)) -/
  sharedAlloc : Nat → Affiliation → Bool → Option Nat
  /-- allocate_memory(ShenandoahAllocRequest::for_plab(min_size, word_size));
  on success yields (buffer, actual word size, allow_plab_promotions after the
  call) since the source notes allocate_memory "sets a thread-local flag to
  prohibit further promotions by this thread" (lines 485-486) -/
  plabAllocMemory : Nat → Nat → Option (Nat × Nat × Bool)
  /-- ShenandoahBarrierSet::resolve_forwarded(p) -/
  resolveForwarded : Nat → Nat
  /-- is_in_old(addr) -/
  isInOld : Nat → Bool
  /-- is_aging_cycle() -/
  isAgingCycle : Bool
  /-- active_generation()->is_young() -/
  activeGenIsYoung : Bool

/-! ## `retire_plab` -/

/-- Result of retiring a PLAB: updated buffer, thread-local data, old
generation, plus the computed not-promoted amount and whether a remnant filler
object was registered with the card scanner. -/
structure RetirePlabResult where
  plab : PLABState
  tld : ThreadLocalData
  old : OldGenState
  notPromoted : Nat
  registeredRemnant : Bool
deriving Repr

/-- Embedding of `ShenandoahGenerationalHeap::retire_plab(PLAB*, Thread*)`
(lines 501-531). -/
def retirePlab (env : EvacEnv) (plab : PLABState) (tld : ThreadLocalData)
    (old : OldGenState) : RetirePlabResult :=
  let notPromoted := tld.plabActualSize - tld.plabPromoted
  let tld1 := { tld with plabPromoted := 0, plabActualSize := 0 }
  let old1 :=
    if notPromoted > 0 then
      { old with unexpendedPromoted := old.unexpendedPromoted + notPromoted }
    else old
  let originalWaste := plab.waste
  let top := plab.top
  let plab1 := plabRetire plab
  let registered :=
    match top with
    | some t => decide (plab1.waste > originalWaste) && env.isInOld t
    | none => false
  { plab := plab1, tld := tld1, old := old1,
    notPromoted := notPromoted, registeredRemnant := registered }

/-! ## `allocate_from_plab_slow` and `allocate_from_plab` -/

/-- Result of the PLAB slow path, with trace booleans recording which branch
was taken. -/
structure PlabSlowResult where
  obj : Option Nat
  plab : PLABState
  tld : ThreadLocalData
  old : OldGenState
  /-- the current PLAB was retired -/
  retiredCurrent : Bool
  /-- a replacement buffer was requested from the shared allocator -/
  requestedNewPlab : Bool
  /-- the replacement buffer request was granted -/
  newPlabGranted : Bool
deriving Repr

/-- The minimum acceptable replacement-buffer size computed at the top of
`allocate_from_plab_slow` (line 398): `max(align_up(size), plab_min_size)`
expressed exactly as the source's conditional. -/
def plabSlowMinSize (cfg : HeapConfig) (size : Nat) : Nat :=
  if size > plabMinSize cfg then alignUp cfg.cardSizeInWords size
  else plabMinSize cfg

/-- Embedding of `ShenandoahGenerationalHeap::allocate_from_plab_slow`
(lines 393-477). The caller guarantees `tld.plab = some plab`. -/
def allocateFromPlabSlow (cfg : HeapConfig) (env : EvacEnv)
    (plab : PLABState) (tld : ThreadLocalData) (old : OldGenState)
    (size : Nat) (isPromotion : Bool) : PlabSlowResult :=
  let minSize := plabSlowMinSize cfg size
  let curSize0 := tld.plabSize
  let curSize := if curSize0 = 0 then plabMinSize cfg else curSize0
  let futureSize := min (curSize * 2) cfg.plabMaxSize
  -- Record new heuristic value even if we take any shortcut (line 420).
  let tld1 := { tld with plabSize := futureSize }
  if curSize < size then
    -- The PLAB to be allocated is still not large enough to hold the object;
    -- fall back to shared allocation without retiring (lines 421-425).
    { obj := none, plab := plab, tld := tld1, old := old,
      retiredCurrent := false, requestedNewPlab := false, newPlabGranted := false }
  else if plab.wordsRemaining < plabMinSize cfg then
    let rp := retirePlab env plab tld1 old
    match env.plabAllocMemory minSize curSize with
    | none =>
      let tld2 :=
        if minSize = plabMinSize cfg then
          { rp.tld with allowPlabPromotions := false }
        else rp.tld
      { obj := none, plab := rp.plab, tld := tld2, old := rp.old,
        retiredCurrent := true, requestedNewPlab := true, newPlabGranted := false }
    | some (buf, actualSize, allowAfter) =>
      -- allocate_memory's external effects: it resets plab_promoted, records
      -- the actual size, and may disable promotions (source comments, lines
      -- 437-438 and 485-486); enable_plab_retries is the source's line 448.
      let tld3 := { rp.tld with
                      plabRetriesEnabled := true,
                      allowPlabPromotions := allowAfter,
                      plabPromoted := 0,
                      plabActualSize := actualSize * cfg.heapWordSize }
      let plab2 := plabSetBuf rp.plab buf actualSize
      if isPromotion && !tld3.allowPlabPromotions then
        { obj := none, plab := plab2, tld := tld3, old := rp.old,
          retiredCurrent := true, requestedNewPlab := true, newPlabGranted := true }
      else
        let (o, plab3) := plabAllocate plab2 size
        { obj := o, plab := plab3, tld := tld3, old := rp.old,
          retiredCurrent := true, requestedNewPlab := true, newPlabGranted := true }
  else
    -- Keep gnawing on the current plab; force a shared allocation (lines 470-476).
    { obj := none, plab := plab, tld := tld1, old := old,
      retiredCurrent := false, requestedNewPlab := false, newPlabGranted := false }

/-- Result of `allocate_from_plab`. -/
structure PlabAllocResult where
  obj : Option Nat
  tld : ThreadLocalData
  old : OldGenState
deriving Repr

/-- Embedding of `ShenandoahGenerationalHeap::allocate_from_plab`
(lines 362-390). The thread's PLAB state is carried inside `tld.plab`. -/
def allocateFromPlab (cfg : HeapConfig) (env : EvacEnv)
    (tld : ThreadLocalData) (old : OldGenState)
    (size : Nat) (isPromotion : Bool) : PlabAllocResult :=
  match tld.plab with
  | none =>
    -- No PLABs in this thread, fallback to shared allocation (lines 368-371).
    { obj := none, tld := tld, old := old }
  | some plab =>
    if isPromotion && !tld.allowPlabPromotions then
      { obj := none, tld := tld, old := old }
    else
      let (obj0, plab1) := plabAllocate plab size
      let tld1 := { tld with plab := some plab1 }
      let afterSlow : Option Nat × ThreadLocalData × OldGenState :=
        match obj0 with
        | some a => (some a, tld1, old)
        | none =>
          if plab1.wordsRemaining < plabMinSize cfg then
            let r := allocateFromPlabSlow cfg env plab1 tld1 old size isPromotion
            (r.obj, { r.tld with plab := some r.plab }, r.old)
          else (none, tld1, old)
      match afterSlow with
      | (none, tld2, old2) => { obj := none, tld := tld2, old := old2 }
      | (some a, tld2, old2) =>
        let tld3 :=
          if isPromotion then
            { tld2 with plabPromoted := tld2.plabPromoted + size * cfg.heapWordSize }
          else tld2
        { obj := some a, tld := tld3, old := old2 }

/-! ## The evacuation engine: `try_evacuate_object` and `evacuate_object` -/

/-- A heap region as seen by the embedded code paths. -/
structure RegionState where
  affiliation : Affiliation
  /-- r->age() -/
  age : Nat
  isActive : Bool
  isHumongous : Bool
  isCset : Bool
  /-- set by our model when oop_coalesce_and_fill processes the region -/
  coalesceFilled : Bool
deriving DecidableEq, Repr

/-- r->is_young() -/
def RegionState.isYoung (r : RegionState) : Bool :=
  r.affiliation = YOUNG_GENERATION

/-- r->is_old() -/
def RegionState.isOld (r : RegionState) : Bool :=
  r.affiliation = OLD_GENERATION

/-- The object being evacuated: its address, word size, and the mark-word
attributes read by `evacuate_object`. -/
structure ObjectState where
  addr : Nat
  /-- p->size(), in heap words -/
  size : Nat
  /-- mark.age() -/
  age : Nat
  /-- mark.is_marked(): the object is already forwarded -/
  isMarked : Bool
  /-- mark.has_displaced_mark_helper() -/
  hasDisplacedMark : Bool
deriving DecidableEq, Repr

/-- Census/tenuring configuration globals read at the winner branch. -/
structure CensusConfig where
  /-- ShenandoahGenerationalCensusAtEvac -/
  censusAtEvac : Bool
  /-- ShenandoahGenerationalAdaptiveTenuring -/
  adaptiveTenuring : Bool
deriving Repr

/-- Modelled from the spec: `ShenandoahForwarding::try_update_forwardee(p, copy)`
is not under src/; the spec states the forwarding install is "one atomic
compare-and-swap per object". On an empty forwarding slot our copy is
installed and returned; otherwise the previously installed forwardee is
returned unchanged. -/
def tryUpdateForwardee (slot : Option Nat) (copy : Nat) : Option Nat × Nat :=
  match slot with
  | none => (some copy, copy)
  | some w => (some w, w)

/-- Modelled from the spec: `ShenandoahHeap::increase_object_age(copy, a)` is
not under src/; the spec states "stamp the copy's age as source-region-age +
1", so the copy's age becomes the argument passed at the call site. -/
def increaseObjectAge (objAge newAge : Nat) : Nat :=
  newAge

/-- Outcome of the forwarding CAS and the winner/loser resolution. -/
structure CasOutcome where
  /-- the oop returned to the caller -/
  returned : Nat
  /-- our CAS installed our copy -/
  won : Bool
  tld : ThreadLocalData
  old : OldGenState
  slot : Option Nat
  /-- the stale shared copy was overwritten with a filler object -/
  filledWithFiller : Bool
  /-- evac_tracker()->record_age was called -/
  recordedAgeCensus : Bool
deriving Repr

/-- Embedding of the forwarding-install and race-resolution tail of
`try_evacuate_object` (lines 300-359): CAS the forwarding slot; the winner
performs generation accounting (and optionally the age census), the loser
rolls back its LAB allocation (decrementing the promoted-bytes counter for
promotions) or overwrites a shared copy with a filler object, and returns the
winner's copy. -/
def casAndResolve (cfg : HeapConfig) (census : CensusConfig)
    (targetGen : Affiliation) (isPromotion allocFromLab : Bool)
    (size copyAddr : Nat) (fromRegionIsYoung : Bool)
    (tld : ThreadLocalData) (old : OldGenState) (slot : Option Nat) :
    CasOutcome :=
  let (slot1, result) := tryUpdateForwardee slot copyAddr
  if result = copyAddr then
    -- Successfully evacuated. Our copy is now the public one.
    let old1 :=
      if targetGen = OLD_GENERATION then
        { old with handledEvacuations := old.handledEvacuations + 1 }
      else old
    let recorded :=
      targetGen = YOUNG_GENERATION &&
        (census.censusAtEvac || !census.adaptiveTenuring)
    { returned := copyAddr, won := true, tld := tld, old := old1,
      slot := slot1, filledWithFiller := false, recordedAgeCensus := recorded }
  else
    if allocFromLab then
      let tld1 :=
        match targetGen with
        | YOUNG_GENERATION =>
          { tld with gclab := plabUndoAllocation tld.gclab size }
        | OLD_GENERATION =>
          let tld2 := { tld with plab := tld.plab.map (fun p => plabUndoAllocation p size) }
          if isPromotion then
            { tld2 with plabPromoted := tld2.plabPromoted - size * cfg.heapWordSize }
          else tld2
        | FREE_REGION => tld -- ShouldNotReachHere
      { returned := result, won := false, tld := tld1, old := old,
        slot := slot1, filledWithFiller := false, recordedAgeCensus := false }
    else
      -- fill_with_object(copy, size): overwrite the stale shared copy.
      { returned := result, won := false, tld := tld, old := old,
        slot := slot1, filledWithFiller := true, recordedAgeCensus := false }

/-- Full outcome of one `try_evacuate_object` call, with trace fields for the
control-flow facts the claims are about. -/
structure EvacResult where
  /-- the returned oop; none models returning nullptr -/
  result : Option Nat
  tld : ThreadLocalData
  old : OldGenState
  slot : Option Nat
  /-- the `has_plab` local -/
  hasPlab : Bool
  /-- copy was still nullptr after the LAB phase (line 254 reached with null) -/
  labFailed : Bool
  /-- a shared (global) allocation was attempted (line 257-258 executed) -/
  sharedAttempted : Bool
  /-- the `alloc_from_lab` local at the end of the allocation phase -/
  allocFromLab : Bool
  /-- the allocated copy address, if any -/
  copyAllocated : Option Nat
  /-- the copy's age after the optional aging stamp (lines 296-298) -/
  copyAge : Option Nat
  /-- oom_evac_handler()->handle_out_of_memory_during_evacuation() was called -/
  oomProtocolInvoked : Bool
  /-- control_thread()->handle_alloc_failure_evac(size) was called -/
  allocFailureHandled : Bool
  filledWithFiller : Bool
  wonRace : Bool
  recordedAgeCensus : Bool
deriving Repr

/-- The `is_promotion` local of `try_evacuate_object` (line 197):
`(target_gen == OLD_GENERATION) && from_region->is_young()`. -/
def isPromotionOf (targetGen : Affiliation) (fromRegion : RegionState) : Bool :=
  targetGen = OLD_GENERATION && fromRegion.isYoung

/-- Outcome of the LAB allocation phase of `try_evacuate_object`. -/
structure LabAllocOutcome where
  copy : Option Nat
  tld : ThreadLocalData
  old : OldGenState
  /-- the `has_plab` local -/
  hasPlab : Bool
deriving Repr

/-- The LAB allocation phase of `try_evacuate_object` (lines 205-252): GCLAB
allocation with a desired-size reset retry for young targets, PLAB allocation
with the guarded retry for old targets. -/
def labAllocPhase (cfg : HeapConfig) (env : EvacEnv)
    (targetGen : Affiliation) (tld : ThreadLocalData) (old : OldGenState)
    (size : Nat) (isPromotion : Bool) : LabAllocOutcome :=
  if cfg.useTLAB then
    match targetGen with
    | YOUNG_GENERATION =>
      let c1 := env.gclabAlloc tld.gclabSize size
      if c1 = none ∧ size < tld.gclabSize then
        -- Reset the desired GCLAB size and retry (lines 209-215).
        let tld2 := { tld with gclabSize := cfg.plabMinSizeRaw }
        { copy := env.gclabAlloc tld2.gclabSize size, tld := tld2, old := old,
          hasPlab := false }
      else { copy := c1, tld := tld, old := old, hasPlab := false }
    | OLD_GENERATION =>
      let hasPlab := tld.plab.isSome
      let r1 := allocateFromPlab cfg env tld old size isPromotion
      if r1.obj = none ∧ size < r1.tld.plabSize ∧ r1.tld.plabRetriesEnabled then
        match r1.tld.plab with
        | some pl =>
          if pl.wordsRemaining < plabMinSize cfg then
            -- Reset the desired PLAB size and retry (lines 234-242).
            let tld2 := { r1.tld with plabSize := plabMinSize cfg }
            let r2 := allocateFromPlab cfg env tld2 r1.old size isPromotion
            let tld3 :=
              if r2.obj = none then { r2.tld with plabRetriesEnabled := false }
              else r2.tld
            { copy := r2.obj, tld := tld3, old := r2.old, hasPlab := hasPlab }
          else { copy := none, tld := r1.tld, old := r1.old, hasPlab := hasPlab }
        | none => { copy := none, tld := r1.tld, old := r1.old, hasPlab := hasPlab }
      else { copy := r1.obj, tld := r1.tld, old := r1.old, hasPlab := hasPlab }
    | FREE_REGION =>
      -- ShouldNotReachHere
      { copy := none, tld := tld, old := old, hasPlab := false }
  else { copy := none, tld := tld, old := old, hasPlab := false }

/-- The shared-allocation fallback of `try_evacuate_object` (lines 254-265):
when the LAB phase produced no copy, attempt a shared allocation unless this
is a promotion, the thread has a PLAB, and the object is no larger than
`PLAB::min_size()`. Returns (copy, alloc_from_lab, shared_attempted). -/
def sharedAllocFallback (cfg : HeapConfig) (env : EvacEnv)
    (targetGen : Affiliation) (isPromotion : Bool) (size : Nat)
    (hasPlab : Bool) (copy0 : Option Nat) : Option Nat × Bool × Bool :=
  match copy0 with
  | some c => (some c, true, false)
  | none =>
    if !isPromotion || !hasPlab || size > cfg.plabMinSizeRaw then
      (env.sharedAlloc size targetGen isPromotion, false, true)
    else
      -- Decline the shared path for small promotions; copy stays nullptr.
      (none, true, false)

/-- The conclusive-allocation-failure handler of `try_evacuate_object`
(lines 270-288): signal failed promotion or failed evacuation on the old
generation as appropriate, then (except for a failed promotion) run the
out-of-memory-during-evacuation protocol and return the resolved forwardee. -/
def evacAllocFailure (env : EvacEnv) (p : ObjectState)
    (fromRegion : RegionState) (targetGen : Affiliation) (slot : Option Nat)
    (tldA : ThreadLocalData) (oldA : OldGenState)
    (hasPlab labFailed sharedAttempted allocFromLab : Bool) : EvacResult :=
  if targetGen = OLD_GENERATION then
    if fromRegion.isYoung then
      -- Signal that promotion failed (lines 272-275).
      { result := none, tld := tldA,
        old := { oldA with failedPromotionCount := oldA.failedPromotionCount + 1 },
        slot := slot, hasPlab := hasPlab, labFailed := labFailed,
        sharedAttempted := sharedAttempted, allocFromLab := allocFromLab,
        copyAllocated := none, copyAge := none,
        oomProtocolInvoked := false, allocFailureHandled := false,
        filledWithFiller := false, wonRace := false, recordedAgeCensus := false }
    else
      -- Remember that evacuation to old gen failed (lines 276-280).
      { result := some (env.resolveForwarded p.addr), tld := tldA,
        old := { oldA with failedEvacuation := true },
        slot := slot, hasPlab := hasPlab, labFailed := labFailed,
        sharedAttempted := sharedAttempted, allocFromLab := allocFromLab,
        copyAllocated := none, copyAge := none,
        oomProtocolInvoked := true, allocFailureHandled := true,
        filledWithFiller := false, wonRace := false, recordedAgeCensus := false }
  else
    { result := some (env.resolveForwarded p.addr), tld := tldA, old := oldA,
      slot := slot, hasPlab := hasPlab, labFailed := labFailed,
      sharedAttempted := sharedAttempted, allocFromLab := allocFromLab,
      copyAllocated := none, copyAge := none,
      oomProtocolInvoked := true, allocFailureHandled := true,
      filledWithFiller := false, wonRace := false, recordedAgeCensus := false }

/-- The successful-copy path of `try_evacuate_object` (lines 290-359): copy
the object's bytes (the copy inherits p's age), stamp the age for young
copies during an aging cycle, then install the forwarding pointer and resolve
the race. -/
def evacCopyAndForward (cfg : HeapConfig) (census : CensusConfig)
    (env : EvacEnv) (p : ObjectState) (fromRegion : RegionState)
    (targetGen : Affiliation) (slot : Option Nat) (tldA : ThreadLocalData)
    (oldA : OldGenState) (hasPlab labFailed sharedAttempted allocFromLab : Bool)
    (copyAddr : Nat) : EvacResult :=
  let copyAge :=
    if targetGen = YOUNG_GENERATION && env.isAgingCycle then
      increaseObjectAge p.age (fromRegion.age + 1)
    else p.age
  let isPromotion := isPromotionOf targetGen fromRegion
  let c := casAndResolve cfg census targetGen isPromotion allocFromLab p.size
             copyAddr fromRegion.isYoung tldA oldA slot
  { result := some c.returned, tld := c.tld, old := c.old, slot := c.slot,
    hasPlab := hasPlab, labFailed := labFailed,
    sharedAttempted := sharedAttempted, allocFromLab := allocFromLab,
    copyAllocated := some copyAddr, copyAge := some copyAge,
    oomProtocolInvoked := false, allocFailureHandled := false,
    filledWithFiller := c.filledWithFiller, wonRace := c.won,
    recordedAgeCensus := c.recordedAgeCensus }

/-- The remainder of `try_evacuate_object` after the LAB phase (lines
254-359): shared-allocation fallback, then conclusive-failure handling or
copy-and-forward. -/
def tryEvacuateAfterLab (cfg : HeapConfig) (census : CensusConfig)
    (env : EvacEnv) (p : ObjectState) (fromRegion : RegionState)
    (targetGen : Affiliation) (slot : Option Nat)
    (lab : LabAllocOutcome) : EvacResult :=
  let isPromotion := isPromotionOf targetGen fromRegion
  let sp := sharedAllocFallback cfg env targetGen isPromotion p.size
              lab.hasPlab lab.copy
  match sp.1 with
  | none =>
    evacAllocFailure env p fromRegion targetGen slot lab.tld lab.old
      lab.hasPlab lab.copy.isNone sp.2.2 sp.2.1
  | some copyAddr =>
    evacCopyAndForward cfg census env p fromRegion targetGen slot lab.tld
      lab.old lab.hasPlab lab.copy.isNone sp.2.2 sp.2.1 copyAddr

/-- Embedding of `ShenandoahGenerationalHeap::try_evacuate_object`
(lines 191-360), for a release build (the `#ifdef ASSERT` OOM-simulation block
is compiled out). The forwarding slot of `p` is passed and returned
explicitly. -/
def tryEvacuateObject (cfg : HeapConfig) (census : CensusConfig) (env : EvacEnv)
    (p : ObjectState) (tld : ThreadLocalData) (old : OldGenState)
    (fromRegion : RegionState) (targetGen : Affiliation)
    (slot : Option Nat) : EvacResult :=
  let isPromotion := isPromotionOf targetGen fromRegion
  tryEvacuateAfterLab cfg census env p fromRegion targetGen slot
    (labAllocPhase cfg env targetGen tld old p.size isPromotion)

/-- Outcome of one `evacuate_object` call. -/
structure EvacuateObjectResult where
  result : Option Nat
  tld : ThreadLocalData
  old : OldGenState
  slot : Option Nat
  /-- try_evacuate_object was invoked with OLD_GENERATION as the target -/
  promotionAttempted : Bool
  /-- try_evacuate_object was invoked at all (a copy may have been attempted) -/
  copyAttempted : Bool
deriving Repr

/-- Embedding of `ShenandoahGenerationalHeap::evacuate_object` (lines
154-187). The source asserts `!r->is_humongous()`; that precondition appears
as a hypothesis in the theorems below. -/
def evacuateObject (cfg : HeapConfig) (census : CensusConfig) (env : EvacEnv)
    (p : ObjectState) (tld : ThreadLocalData) (old : OldGenState)
    (r : RegionState) (slot : Option Nat) : EvacuateObjectResult :=
  if tld.oomDuringEvac then
    -- This thread went through the OOM-during-evac protocol: return the
    -- forward pointer, do not attempt to evacuate (lines 156-160).
    { result := some (env.resolveForwarded p.addr), tld := tld, old := old,
      slot := slot, promotionAttempted := false, copyAttempted := false }
  else
    let targetGen := r.affiliation
    let fallback (tld0 : ThreadLocalData) (old0 : OldGenState)
        (slot0 : Option Nat) (promoted : Bool) : EvacuateObjectResult :=
      let r2 := tryEvacuateObject cfg census env p tld0 old0 r targetGen slot0
      { result := r2.result, tld := r2.tld, old := r2.old, slot := r2.slot,
        promotionAttempted := promoted, copyAttempted := true }
    if env.activeGenIsYoung ∧ targetGen = YOUNG_GENERATION then
      if p.isMarked then
        -- Already forwarded (lines 170-173).
        { result := some (env.resolveForwarded p.addr), tld := tld, old := old,
          slot := slot, promotionAttempted := false, copyAttempted := false }
      else if p.hasDisplacedMark then
        -- Skip the potential promotion attempt for this one (lines 175-177).
        fallback tld old slot false
      else if r.age + p.age ≥ cfg.tenuringThreshold then
        let r1 := tryEvacuateObject cfg census env p tld old r OLD_GENERATION slot
        match r1.result with
        | some v =>
          { result := some v, tld := r1.tld, old := r1.old, slot := r1.slot,
            promotionAttempted := true, copyAttempted := true }
        | none =>
          -- Failed to promote this aged object: evacuate to young-gen.
          fallback r1.tld r1.old r1.slot true
      else fallback tld old slot false
    else fallback tld old slot false

/-! ## The forwarding race: N threads evacuating the same object

Each racing thread has already allocated its private copy; the forwarding
CAS is the single synchronization point, so a concurrent execution is
modelled as a linearization of the per-thread CAS-and-resolve steps on the
shared forwarding slot. -/

/-- One thread's race attempt: its allocated copy and the context of the
`try_evacuate_object` call that produced it. -/
structure RaceAttempt where
  copyAddr : Nat
  targetGen : Affiliation
  isPromotion : Bool
  allocFromLab : Bool
  fromRegionIsYoung : Bool
  size : Nat
  tld : ThreadLocalData
deriving Repr

/-- Run the CAS-and-resolve step of every racing thread, in linearization
order, against the shared forwarding slot and old-generation state. -/
def runRace (cfg : HeapConfig) (census : CensusConfig) :
    OldGenState → Option Nat → List RaceAttempt →
    Option Nat × OldGenState × List CasOutcome
  | old, slot, [] => (slot, old, [])
  | old, slot, a :: rest =>
    let o := casAndResolve cfg census a.targetGen a.isPromotion a.allocFromLab
               a.size a.copyAddr a.fromRegionIsYoung a.tld old slot
    let r := runRace cfg census o.old o.slot rest
    (r.1, r.2.1, o :: r.2.2)

/-! ## Cycle completion: balancing, reserve reset, coalesce-and-fill -/

/-- The heap state threaded through the cycle-completion paths. -/
structure HeapState where
  regions : List RegionState
  old : OldGenState
  /-- young_generation()->set_evacuation_reserve(...) -/
  youngEvacuationReserve : Nat
  /-- is_concurrent_old_mark_in_progress() -/
  concOldMarkInProgress : Bool
  /-- trace: old_generation()->transfer_pointers_from_satb() was called -/
  satbDrained : Bool
deriving Repr

/-- `ShenandoahGenerationalHeap::TransferResult`. -/
structure TransferResult where
  success : Bool
  regionCount : Nat
  destination : String
deriving DecidableEq, Repr

/-- External oracles for cycle completion: the generation sizer's physical
region transfers. -/
structure CycleEnv where
  /-- generation_sizer()->transfer_to_young(n) -/
  transferToYoung : Nat → Bool
  /-- generation_sizer()->transfer_to_old(n) -/
  transferToOld : Nat → Bool

/-- Embedding of `ShenandoahGenerationalHeap::balance_generations`
(lines 538-565): read the pending signed balance, reset it to zero, perform
the physical transfer, notify the old generation on a failed transfer to
old. -/
def balanceGenerations (env : CycleEnv) (hs : HeapState) :
    TransferResult × HeapState :=
  let bal := hs.old.regionBalance
  let old1 := { hs.old with regionBalance := 0 }
  if bal > 0 then
    let surplus := bal.toNat
    let success := env.transferToYoung surplus
    ({ success := success, regionCount := surplus, destination := "young" },
     { hs with old := old1 })
  else if bal < 0 then
    let deficit := (-bal).toNat
    let success := env.transferToOld deficit
    let old2 := if !success then { old1 with failedTransfer := true } else old1
    ({ success := success, regionCount := deficit, destination := "old" },
     { hs with old := old2 })
  else
    ({ success := true, regionCount := 0, destination := "none" },
     { hs with old := old1 })

/-- Embedding of `ShenandoahGenerationalHeap::reset_generation_reserves`
(lines 660-664). -/
def resetGenerationReserves (hs : HeapState) : HeapState :=
  { hs with youngEvacuationReserve := 0,
            old := { hs.old with evacuationReserve := 0, promotedReserve := 0 } }

/-- Embedding of `ShenandoahGenerationalHeap::coalesce_and_fill_old_regions`
(lines 679-716): a non-cancellable pass over every region; each old, active,
non-humongous region is coalesced and filled, and the old generation is
marked parseable on completion. -/
def coalesceAndFillOldRegions (hs : HeapState) : HeapState :=
  { hs with
      regions := hs.regions.map (fun r =>
        if r.isOld && r.isActive && !r.isHumongous then
          { r with coalesceFilled := true }
        else r),
      old := { hs.old with parseable := true } }

/-- Outcome of a cycle-completion path, with a trace of whether the
coalesce-and-fill pass ran. -/
structure CycleCompletionResult where
  heap : HeapState
  transfer : TransferResult
  coalesceRan : Bool
deriving Repr

/-- Embedding of `ShenandoahGenerationalHeap::complete_degenerated_cycle`
(lines 951-976): drain deferred SATB entries if old marking was in flight,
balance generations, reset reserves, and coalesce-and-fill if the old
generation is not parseable. -/
def completeDegeneratedCycle (env : CycleEnv) (hs : HeapState) :
    CycleCompletionResult :=
  let hs1 :=
    if hs.concOldMarkInProgress then { hs with satbDrained := true } else hs
  let br := balanceGenerations env hs1
  let hs3 := resetGenerationReserves br.2
  if !hs3.old.parseable then
    { heap := coalesceAndFillOldRegions hs3, transfer := br.1, coalesceRan := true }
  else
    { heap := hs3, transfer := br.1, coalesceRan := false }

/-- Embedding of `ShenandoahGenerationalHeap::complete_concurrent_cycle`
(lines 978-1003): coalesce-and-fill first (outside the heap lock) if the old
generation is not parseable, then balance generations and reset reserves
under the lock. -/
def completeConcurrentCycle (env : CycleEnv) (hs : HeapState) :
    CycleCompletionResult :=
  let ranCoalesce := !hs.old.parseable
  let hs1 := if !hs.old.parseable then coalesceAndFillOldRegions hs else hs
  let br := balanceGenerations env hs1
  let hs3 := resetGenerationReserves br.2
  { heap := hs3, transfer := br.1, coalesceRan := ranCoalesce }

/-! ## Concrete fixtures for witnesses and counterexamples -/

/-- A concrete heap configuration: card size 64 words, raw PLAB minimum 100
words (so the aligned `plab_min_size()` is 128), PLAB maximum 1024 words. -/
def testConfig : HeapConfig :=
  { cardSizeInWords := 64, plabMinSizeRaw := 100, plabMaxSize := 1024,
    heapWordSize := 8, useTLAB := true, tenuringThreshold := 3 }

/-- Census configuration with the census recorded at evacuation. -/
def testCensus : CensusConfig :=
  { censusAtEvac := true, adaptiveTenuring := true }

/-- An environment in which every external allocation fails. -/
def failingEvacEnv : EvacEnv :=
  { gclabAlloc := fun _ _ => none,
    sharedAlloc := fun _ _ _ => none,
    plabAllocMemory := fun _ _ => none,
    resolveForwarded := fun a => a + 1,
    isInOld := fun _ => false,
    isAgingCycle := true,
    activeGenIsYoung := true }

/-- An environment in which a replacement PLAB request is granted at the
desired size (and promotions stay allowed). -/
def grantingEvacEnv : EvacEnv :=
  { failingEvacEnv with plabAllocMemory := fun _ w => some (2000, w, true) }

/-- A fresh old-generation accounting state. -/
def zeroOldGen : OldGenState :=
  { unexpendedPromoted := 0, failedPromotionCount := 0, failedEvacuation := false,
    failedTransfer := false, parseable := true, regionBalance := 0,
    evacuationReserve := 0, promotedReserve := 0, handledEvacuations := 0 }

/-- A nearly-exhausted PLAB: 16 words left, below the 128-word minimum. -/
def basePlab : PLABState := { top := some 1000, wordsRemaining := 16, waste := 0 }

/-- A thread whose PLAB preferred-size heuristic is still uninitialized
(plab_size = 0). -/
def baseTld : ThreadLocalData :=
  { oomDuringEvac := false, gclabSize := 0,
    gclab := { top := some 5000, wordsRemaining := 256, waste := 0 },
    plab := some basePlab, plabSize := 0, plabRetriesEnabled := true,
    allowPlabPromotions := true, plabPromoted := 0, plabActualSize := 0 }

/-- A concrete input on which `compute_old_generation_balance` computes a
deficit (transfer toward old) of 5 regions although the old generation has no
free unaffiliated regions and no evacuating old regions. -/
def c1DeficitInput : BalanceInputs :=
  { oldAvailable := 0, youngMaxCapacity := 204800,
    evacReservePercent := 5, oldEvacRatioPercent := 50,
    hasUnprocessedCandidates := false, candidatesLiveMemoryScaled := 0,
    freeUnaffiliatedRegions := 0, promoLoad := 3000, promoLoadScaled := 4200,
    regionSizeBytes := 1024 }

/-- A concrete input on which `compute_old_generation_balance` computes a
surplus (transfer to young) of 60 regions. -/
def c1SurplusInput : BalanceInputs :=
  { oldAvailable := 102400, youngMaxCapacity := 204800,
    evacReservePercent := 5, oldEvacRatioPercent := 50,
    hasUnprocessedCandidates := false, candidatesLiveMemoryScaled := 0,
    freeUnaffiliatedRegions := 50, promoLoad := 0, promoLoadScaled := 0,
    regionSizeBytes := 1024 }

/-- A thread that promoted 40 of the 100 bytes granted to its PLAB. -/
def c8Tld : ThreadLocalData :=
  { baseTld with plabPromoted := 40, plabActualSize := 100 }

/-- A thread with a large recorded preferred PLAB size, so that an oversized
request still reaches the replacement-buffer request. -/
def c7Tld : ThreadLocalData := { baseTld with plabSize := 512 }

/-- A thread whose promotions have been disabled. -/
def c7NoPromoTld : ThreadLocalData := { baseTld with allowPlabPromotions := false }

/-- A young, active, non-humongous collection-set region of age 2. -/
def youngRegion : RegionState :=
  { affiliation := YOUNG_GENERATION, age := 2, isActive := true,
    isHumongous := false, isCset := true, coalesceFilled := false }

/-- An old, active, non-humongous collection-set region. -/
def oldRegion : RegionState :=
  { affiliation := OLD_GENERATION, age := 7, isActive := true,
    isHumongous := false, isCset := true, coalesceFilled := false }

/-- A live 20-word object of age 1 with an undisturbed mark word. -/
def testObject : ObjectState :=
  { addr := 4242, size := 20, age := 1, isMarked := false,
    hasDisplacedMark := false }

/-- An environment whose GCLAB allocation succeeds at address 3000. -/
def grantingGclabEnv : EvacEnv :=
  { failingEvacEnv with gclabAlloc := fun _ _ => some 3000 }

/-- An object whose mark word already indicates it is forwarded. -/
def markedObject : ObjectState := { testObject with isMarked := true }

/-- An aged object with a displaced (locked) mark word: its combined age
5 + 2 meets the tenuring threshold 3. -/
def displacedObject : ObjectState :=
  { testObject with hasDisplacedMark := true, age := 5 }

/-- The race attempt whose CAS is linearized first. -/
def raceWinner : RaceAttempt :=
  { copyAddr := 100, targetGen := OLD_GENERATION, isPromotion := true,
    allocFromLab := true, fromRegionIsYoung := true, size := 8, tld := c8Tld }

/-- A losing race attempt whose copy came from its PLAB. -/
def raceLoserLab : RaceAttempt :=
  { copyAddr := 200, targetGen := OLD_GENERATION, isPromotion := true,
    allocFromLab := true, fromRegionIsYoung := true, size := 8, tld := c8Tld }

/-- A losing race attempt whose copy came from a shared allocation. -/
def raceLoserShared : RaceAttempt :=
  { copyAddr := 300, targetGen := YOUNG_GENERATION, isPromotion := false,
    allocFromLab := false, fromRegionIsYoung := true, size := 8, tld := baseTld }

/-! ## Claim C1: bounds on the computed region balance -/

/-- Claim C1, counterexample: the claim states that a transfer (deficit)
toward the old generation never exceeds `free_unaffiliated_regions +
evacuating_old_regions`. On this input the computed balance is a deficit of 5
regions while `free_unaffiliated_regions + evacuating_old_regions = 0`: the
bound by unaffiliated regions applies to the surplus transferred to young,
not to the deficit transferred to old. -/
theorem c1_transfer_to_old_bound_counterexample :
    computeOldGenerationBalance c1DeficitInput 10240 0 = -5 ∧
    ¬ ((- computeOldGenerationBalance c1DeficitInput 10240 0).toNat ≤
        c1DeficitInput.freeUnaffiliatedRegions + 0) := by
  decide

/-- Claim C1 (amended): for every call of `compute_old_generation_balance`,
the magnitude of the signed region balance it stores never exceeds
`transfer_limit / region_size` regions when the balance is a transfer
(deficit) toward the old generation, and a transfer to young (surplus) never
exceeds `free_unaffiliated_regions + evacuating_old_regions` regions. -/
theorem c1_region_balance_bounds (inp : BalanceInputs)
    (oldXferLimit oldCsetRegions : Nat) :
    (computeOldGenerationBalance inp oldXferLimit oldCsetRegions < 0 →
      (- computeOldGenerationBalance inp oldXferLimit oldCsetRegions).toNat ≤
        oldXferLimit / inp.regionSizeBytes) ∧
    (0 < computeOldGenerationBalance inp oldXferLimit oldCsetRegions →
      (computeOldGenerationBalance inp oldXferLimit oldCsetRegions).toNat ≤
        inp.freeUnaffiliatedRegions + oldCsetRegions) := by
  simp only [computeOldGenerationBalance]
  split
  · constructor
    · intro h
      exact absurd h (Int.not_lt.mpr (Int.ofNat_nonneg _))
    · intro _
      exact Nat.min_le_right _ _
  · constructor
    · intro h
      rw [zero_sub, neg_neg]
      exact Nat.min_le_right _ _
    · intro h
      rw [zero_sub] at h
      exact absurd (Int.neg_pos.mp h) (Int.not_lt.mpr (Int.ofNat_nonneg _))

/-- Claim C1, witness: the amended bounds evaluated at one deficit input and
one surplus input. -/
theorem c1_region_balance_bounds_witness :
    ((- computeOldGenerationBalance c1DeficitInput 10240 0).toNat ≤
      10240 / c1DeficitInput.regionSizeBytes) ∧
    ((computeOldGenerationBalance c1SurplusInput 0 10).toNat ≤
      c1SurplusInput.freeUnaffiliatedRegions + 10) :=
  ⟨(c1_region_balance_bounds c1DeficitInput 10240 0).1 (by decide),
   (c1_region_balance_bounds c1SurplusInput 0 10).2 (by decide)⟩

/-! ## Claim C8: buffer retirement conservation -/

/-- Claim C8: `retire_plab` computes not-promoted as the buffer's recorded
actual size minus the bytes promoted through it, returns that amount (when
positive) to the old generation via `unexpend_promoted`, resets the thread's
promoted-bytes and actual-size counters to zero, and promoted plus
not-promoted equals the buffer's actual granted size. The hypothesis is the
source's implicit size_t invariant that promoted bytes never exceed the
granted size. -/
theorem c8_retire_plab_conservation (env : EvacEnv) (plab : PLABState)
    (tld : ThreadLocalData) (old : OldGenState)
    (h : tld.plabPromoted ≤ tld.plabActualSize) :
    (retirePlab env plab tld old).notPromoted =
      tld.plabActualSize - tld.plabPromoted ∧
    (0 < (retirePlab env plab tld old).notPromoted →
      (retirePlab env plab tld old).old.unexpendedPromoted =
        old.unexpendedPromoted + (retirePlab env plab tld old).notPromoted) ∧
    ((retirePlab env plab tld old).notPromoted = 0 →
      (retirePlab env plab tld old).old.unexpendedPromoted =
        old.unexpendedPromoted) ∧
    (retirePlab env plab tld old).tld.plabPromoted = 0 ∧
    (retirePlab env plab tld old).tld.plabActualSize = 0 ∧
    tld.plabPromoted + (retirePlab env plab tld old).notPromoted =
      tld.plabActualSize := by
  simp only [retirePlab]
  split_ifs with h1 <;> simp <;> omega

/-- Claim C8, witness: retiring a 100-byte PLAB through which 40 bytes were
promoted conserves the granted size. -/
theorem c8_retire_plab_conservation_witness :
    c8Tld.plabPromoted ≤ c8Tld.plabActualSize ∧
    c8Tld.plabPromoted +
      (retirePlab failingEvacEnv basePlab c8Tld zeroOldGen).notPromoted =
      c8Tld.plabActualSize :=
  ⟨by decide,
   (c8_retire_plab_conservation failingEvacEnv basePlab c8Tld zeroOldGen
      (by decide)).2.2.2.2.2⟩

/-! ## Claim C6: the PLAB slow-path size heuristic -/

/-- Claim C6, counterexample: the claim states that every slow-path call
updates the thread's recorded preferred buffer size to
`min(2 x previous preferred size, configured maximum)`. When the recorded
previous size is 0 (uninitialized), the source first substitutes the
configured minimum (lines 403-406): the recorded size becomes 256, not
`min(2 x 0, max) = 0`. -/
theorem c6_plab_slow_preferred_size_counterexample :
    (allocateFromPlabSlow testConfig failingEvacEnv basePlab baseTld zeroOldGen
        20 false).tld.plabSize = 256 ∧
    min (baseTld.plabSize * 2) testConfig.plabMaxSize = 0 ∧
    (256 : Nat) ≠ 0 := by
  decide

/-- Claim C6 (amended): every slow-path call updates the thread's recorded
preferred buffer size to `min(2 x previous preferred size, configured
maximum)`, where a zero (uninitialized) previous size is first replaced by
the configured minimum buffer size; and if the candidate buffer size (the
size at which the replacement buffer would be requested) is smaller than the
requested object size, the call returns failure without retiring the current
buffer. -/
theorem c6_plab_slow_size_heuristic (cfg : HeapConfig) (env : EvacEnv)
    (plab : PLABState) (tld : ThreadLocalData) (old : OldGenState)
    (size : Nat) (isPromotion : Bool) :
    (allocateFromPlabSlow cfg env plab tld old size isPromotion).tld.plabSize =
      min ((if tld.plabSize = 0 then plabMinSize cfg else tld.plabSize) * 2)
          cfg.plabMaxSize ∧
    ((if tld.plabSize = 0 then plabMinSize cfg else tld.plabSize) < size →
      (allocateFromPlabSlow cfg env plab tld old size isPromotion).obj = none ∧
      (allocateFromPlabSlow cfg env plab tld old size isPromotion).retiredCurrent
        = false) := by
  by_cases hlt : (if tld.plabSize = 0 then plabMinSize cfg else tld.plabSize) < size
  · simp [allocateFromPlabSlow, hlt]
  · by_cases hrem : plab.wordsRemaining < plabMinSize cfg
    · cases hm : env.plabAllocMemory (plabSlowMinSize cfg size)
          (if tld.plabSize = 0 then plabMinSize cfg else tld.plabSize) with
      | none =>
        simp only [allocateFromPlabSlow, if_neg hlt, if_pos hrem, hm]
        split_ifs <;> simp_all [retirePlab]
      | some v =>
        obtain ⟨buf, actual, allow⟩ := v
        simp only [allocateFromPlabSlow, if_neg hlt, if_pos hrem, hm]
        split_ifs <;> simp_all [retirePlab]
    · simp [allocateFromPlabSlow, hlt, hrem]

/-- Claim C6, witness: a 200-word request against a 128-word candidate size
declines without retiring the current buffer. -/
theorem c6_plab_slow_size_heuristic_witness :
    ((if baseTld.plabSize = 0 then plabMinSize testConfig else baseTld.plabSize)
        < 200) ∧
    ((allocateFromPlabSlow testConfig failingEvacEnv basePlab baseTld zeroOldGen
        200 false).obj = none ∧
     (allocateFromPlabSlow testConfig failingEvacEnv basePlab baseTld zeroOldGen
        200 false).retiredCurrent = false) :=
  ⟨by decide,
   (c6_plab_slow_size_heuristic testConfig failingEvacEnv basePlab baseTld
      zeroOldGen 200 false).2 (by decide)⟩

/-! ## Claim C7: promotion disabling and retry enabling in the slow path -/

/-- Claim C7, counterexample: the claim states that whenever the replacement
buffer cannot be satisfied at the minimum acceptable size, promotions are
disabled for the thread. For a 200-word request the minimum acceptable size
is 256 (not the configured 128-word minimum); the replacement request fails,
yet promotions remain enabled: the source disables them only when the
minimum acceptable size equals `plab_min_size()` (lines 441-445). -/
theorem c7_promotion_disable_counterexample :
    (allocateFromPlabSlow testConfig failingEvacEnv basePlab c7Tld zeroOldGen
        200 true).requestedNewPlab = true ∧
    (allocateFromPlabSlow testConfig failingEvacEnv basePlab c7Tld zeroOldGen
        200 true).newPlabGranted = false ∧
    (allocateFromPlabSlow testConfig failingEvacEnv basePlab c7Tld zeroOldGen
        200 true).tld.allowPlabPromotions = true := by
  decide

/-- Claim C7 (amended): in the buffer slow path, when the replacement-buffer
request fails and the minimum acceptable size equals the configured minimum
buffer size, further promotion attempts by the thread are disabled (and with
promotions disabled, a subsequent promotion allocation fails fast); whenever
a replacement buffer is obtained, retry-on-failure is enabled for the
thread. -/
theorem c7_plab_slow_failure_handling (cfg : HeapConfig) (env : EvacEnv)
    (plab : PLABState) (tld : ThreadLocalData) (old : OldGenState)
    (size : Nat) (isPromotion : Bool) :
    ((allocateFromPlabSlow cfg env plab tld old size isPromotion).requestedNewPlab
        = true →
     (allocateFromPlabSlow cfg env plab tld old size isPromotion).newPlabGranted
        = false →
     plabSlowMinSize cfg size = plabMinSize cfg →
     (allocateFromPlabSlow cfg env plab tld old size
        isPromotion).tld.allowPlabPromotions = false) ∧
    ((allocateFromPlabSlow cfg env plab tld old size isPromotion).newPlabGranted
        = true →
     (allocateFromPlabSlow cfg env plab tld old size
        isPromotion).tld.plabRetriesEnabled = true) ∧
    (tld.allowPlabPromotions = false →
     (allocateFromPlab cfg env tld old size true).obj = none) := by
  refine ⟨?_, ?_, ?_⟩
  · by_cases hlt : (if tld.plabSize = 0 then plabMinSize cfg else tld.plabSize) < size
    · simp [allocateFromPlabSlow, hlt]
    · by_cases hrem : plab.wordsRemaining < plabMinSize cfg
      · cases hm : env.plabAllocMemory (plabSlowMinSize cfg size)
            (if tld.plabSize = 0 then plabMinSize cfg else tld.plabSize) with
        | none =>
          simp only [allocateFromPlabSlow, if_neg hlt, if_pos hrem, hm]
          split_ifs with hmin <;> simp [retirePlab, hmin]
        | some v =>
          obtain ⟨buf, actual, allow⟩ := v
          simp only [allocateFromPlabSlow, if_neg hlt, if_pos hrem, hm]
          split_ifs <;> simp [retirePlab]
      · simp [allocateFromPlabSlow, hlt, hrem]
  · by_cases hlt : (if tld.plabSize = 0 then plabMinSize cfg else tld.plabSize) < size
    · simp [allocateFromPlabSlow, hlt]
    · by_cases hrem : plab.wordsRemaining < plabMinSize cfg
      · cases hm : env.plabAllocMemory (plabSlowMinSize cfg size)
            (if tld.plabSize = 0 then plabMinSize cfg else tld.plabSize) with
        | none =>
          simp only [allocateFromPlabSlow, if_neg hlt, if_pos hrem, hm]
          split_ifs <;> simp [retirePlab]
        | some v =>
          obtain ⟨buf, actual, allow⟩ := v
          simp only [allocateFromPlabSlow, if_neg hlt, if_pos hrem, hm]
          split_ifs <;> simp [retirePlab]
      · simp [allocateFromPlabSlow, hlt, hrem]
  · intro h
    cases htl : tld.plab <;> simp [allocateFromPlab, htl, h]

/-- Claim C7, witness: a minimum-size replacement failure disables
promotions; a granted replacement enables retries; a disabled thread's
promotion allocation fails fast. -/
theorem c7_plab_slow_failure_handling_witness :
    (allocateFromPlabSlow testConfig failingEvacEnv basePlab baseTld zeroOldGen
        20 true).tld.allowPlabPromotions = false ∧
    (allocateFromPlabSlow testConfig grantingEvacEnv basePlab baseTld zeroOldGen
        20 true).tld.plabRetriesEnabled = true ∧
    (allocateFromPlab testConfig failingEvacEnv c7NoPromoTld zeroOldGen
        20 true).obj = none :=
  ⟨(c7_plab_slow_failure_handling testConfig failingEvacEnv basePlab baseTld
      zeroOldGen 20 true).1 (by decide) (by decide) (by decide),
   (c7_plab_slow_failure_handling testConfig grantingEvacEnv basePlab baseTld
      zeroOldGen 20 true).2.1 (by decide),
   (c7_plab_slow_failure_handling testConfig failingEvacEnv basePlab c7NoPromoTld
      zeroOldGen 20 true).2.2 (by decide)⟩


/-! ## Allocation-phase framing: only the promotion reserve accounting of the
old generation is touched before the failure/CAS stage -/

/-- Retiring a PLAB changes the old generation only in its unexpended
promotion reserve. -/
theorem retirePlab_old_shape (env : EvacEnv) (plab : PLABState)
    (tld : ThreadLocalData) (old : OldGenState) :
    ∃ u, (retirePlab env plab tld old).old = { old with unexpendedPromoted := u } := by
  simp only [retirePlab]
  split_ifs <;> exact ⟨_, rfl⟩

/-- The PLAB slow path changes the old generation only in its unexpended
promotion reserve. -/
theorem allocateFromPlabSlow_old_shape (cfg : HeapConfig) (env : EvacEnv)
    (plab : PLABState) (tld : ThreadLocalData) (old : OldGenState)
    (size : Nat) (isPromotion : Bool) :
    ∃ u, (allocateFromPlabSlow cfg env plab tld old size isPromotion).old =
      { old with unexpendedPromoted := u } := by
  by_cases hlt : (if tld.plabSize = 0 then plabMinSize cfg else tld.plabSize) < size
  · exact ⟨old.unexpendedPromoted, by simp [allocateFromPlabSlow, hlt]⟩
  · by_cases hrem : plab.wordsRemaining < plabMinSize cfg
    · obtain ⟨u, hu⟩ := retirePlab_old_shape env plab
        { tld with plabSize := min ((if tld.plabSize = 0 then plabMinSize cfg
            else tld.plabSize) * 2) cfg.plabMaxSize } old
      cases hm : env.plabAllocMemory (plabSlowMinSize cfg size)
          (if tld.plabSize = 0 then plabMinSize cfg else tld.plabSize) with
      | none =>
        refine ⟨u, ?_⟩
        simp only [allocateFromPlabSlow, if_neg hlt, if_pos hrem, hm]
        split_ifs <;> exact hu
      | some v =>
        obtain ⟨buf, actual, allow⟩ := v
        refine ⟨u, ?_⟩
        simp only [allocateFromPlabSlow, if_neg hlt, if_pos hrem, hm]
        split_ifs <;> exact hu
    · exact ⟨old.unexpendedPromoted, by simp [allocateFromPlabSlow, hlt, hrem]⟩

/-- `allocate_from_plab` changes the old generation only in its unexpended
promotion reserve. -/
theorem allocateFromPlab_old_shape (cfg : HeapConfig) (env : EvacEnv)
    (tld : ThreadLocalData) (old : OldGenState) (size : Nat) (isPromotion : Bool) :
    ∃ u, (allocateFromPlab cfg env tld old size isPromotion).old =
      { old with unexpendedPromoted := u } := by
  cases htl : tld.plab with
  | none => exact ⟨old.unexpendedPromoted, by simp [allocateFromPlab, htl]⟩
  | some plab =>
    by_cases hguard : (isPromotion && !tld.allowPlabPromotions) = true
    · exact ⟨old.unexpendedPromoted, by simp [allocateFromPlab, htl, hguard]⟩
    · rcases hfast : plabAllocate plab size with ⟨o, plab1⟩
      cases o with
      | some a =>
        refine ⟨old.unexpendedPromoted, ?_⟩
        simp only [allocateFromPlab, htl, hfast]
        rw [if_neg hguard]
      | none =>
        by_cases hrem : plab1.wordsRemaining < plabMinSize cfg
        · obtain ⟨u, hu⟩ := allocateFromPlabSlow_old_shape cfg env plab1
            { tld with plab := some plab1 } old size isPromotion
          refine ⟨u, ?_⟩
          simp only [allocateFromPlab, htl, hfast]
          rw [if_neg hguard, if_pos hrem]
          all_goals (cases hro : (allocateFromPlabSlow cfg env plab1
              { tld with plab := some plab1 } old size isPromotion).obj <;>
            simp [hro, hu])
        · refine ⟨old.unexpendedPromoted, ?_⟩
          simp only [allocateFromPlab, htl, hfast]
          rw [if_neg hguard, if_neg hrem]

/-- The whole LAB allocation phase changes the old generation only in its
unexpended promotion reserve. -/
theorem labAllocPhase_old_shape (cfg : HeapConfig) (env : EvacEnv)
    (targetGen : Affiliation) (tld : ThreadLocalData) (old : OldGenState)
    (size : Nat) (isPromotion : Bool) :
    ∃ u, (labAllocPhase cfg env targetGen tld old size isPromotion).old =
      { old with unexpendedPromoted := u } := by
  by_cases htlab : cfg.useTLAB = true
  · cases targetGen with
    | FREE_REGION => exact ⟨old.unexpendedPromoted, by simp [labAllocPhase, htlab]⟩
    | YOUNG_GENERATION =>
      refine ⟨old.unexpendedPromoted, ?_⟩
      simp only [labAllocPhase, htlab, if_pos]
      split_ifs <;> rfl
    | OLD_GENERATION =>
      simp only [labAllocPhase, htlab, if_pos]
      have h1x := allocateFromPlab_old_shape cfg env tld old size isPromotion
      generalize hr1 : allocateFromPlab cfg env tld old size isPromotion = r1 at h1x ⊢
      obtain ⟨u1, h1⟩ := h1x
      by_cases hcond : r1.obj = none ∧ size < r1.tld.plabSize ∧ r1.tld.plabRetriesEnabled
      · rw [if_pos hcond]
        cases hpl : r1.tld.plab with
        | none => exact ⟨u1, by simp [hpl, h1]⟩
        | some pl =>
          by_cases hrem : pl.wordsRemaining < plabMinSize cfg
          · obtain ⟨u2, h2⟩ := allocateFromPlab_old_shape cfg env
              { r1.tld with plabSize := plabMinSize cfg } r1.old size isPromotion
            refine ⟨u2, ?_⟩
            simp only [hpl, if_pos hrem]
            simp only [] at h2
            rw [hpl] at h2
            rw [h2, h1]
          · exact ⟨u1, by simp [hpl, hrem, h1]⟩
      · rw [if_neg hcond]
        exact ⟨u1, h1⟩
  · simp only [Bool.not_eq_true] at htlab
    exact ⟨old.unexpendedPromoted, by simp [labAllocPhase, htlab]⟩

/-! ## Claim C3: the shared-allocation fallback condition -/

/-- Claim C3: in `try_evacuate_object`, when thread-local buffer allocation
has failed, a shared allocation is attempted if and only if it is not the
case that the request is a promotion, the thread has a PLAB, and the object
size is at most `PLAB::min_size()`; in the excluded case the copy remains
unallocated and the promotion fails for this cycle (failed promotion is
signalled and null is returned). -/
theorem c3_shared_allocation_condition (cfg : HeapConfig)
    (census : CensusConfig) (env : EvacEnv) (p : ObjectState)
    (tld : ThreadLocalData) (old : OldGenState) (fromRegion : RegionState)
    (targetGen : Affiliation) (slot : Option Nat) :
    (tryEvacuateObject cfg census env p tld old fromRegion targetGen slot).labFailed
        = true →
    (((tryEvacuateObject cfg census env p tld old fromRegion targetGen
          slot).sharedAttempted = true ↔
       ¬(isPromotionOf targetGen fromRegion = true ∧
         (tryEvacuateObject cfg census env p tld old fromRegion targetGen
            slot).hasPlab = true ∧
         p.size ≤ cfg.plabMinSizeRaw)) ∧
     ((tryEvacuateObject cfg census env p tld old fromRegion targetGen
          slot).sharedAttempted = false →
       (tryEvacuateObject cfg census env p tld old fromRegion targetGen
          slot).copyAllocated = none ∧
       (tryEvacuateObject cfg census env p tld old fromRegion targetGen
          slot).result = none ∧
       (tryEvacuateObject cfg census env p tld old fromRegion targetGen
          slot).oomProtocolInvoked = false ∧
       (tryEvacuateObject cfg census env p tld old fromRegion targetGen
          slot).old.failedPromotionCount = old.failedPromotionCount + 1)) := by
  obtain ⟨u, hu⟩ := labAllocPhase_old_shape cfg env targetGen tld old p.size
      (isPromotionOf targetGen fromRegion)
  simp only [tryEvacuateObject]
  generalize hL : labAllocPhase cfg env targetGen tld old p.size
      (isPromotionOf targetGen fromRegion) = L at hu ⊢
  obtain ⟨c0, tldA, oldA, hpb⟩ := L
  simp only [] at hu
  cases c0 with
  | some a =>
    intro hlab
    simp [tryEvacuateAfterLab, sharedAllocFallback, evacCopyAndForward] at hlab
  | none =>
    intro _
    cases hpro : isPromotionOf targetGen fromRegion with
    | false =>
      cases he : env.sharedAlloc p.size targetGen false with
      | none =>
        simp only [tryEvacuateAfterLab, sharedAllocFallback, hpro, he]
        simp [evacAllocFailure, hu]
        split_ifs <;> simp [hu]
      | some a =>
        simp only [tryEvacuateAfterLab, sharedAllocFallback, hpro, he]
        simp [evacCopyAndForward]
    | true =>
      have htg : targetGen = OLD_GENERATION ∧ fromRegion.isYoung = true := by
        simpa [isPromotionOf, Bool.and_eq_true, decide_eq_true_eq] using hpro
      cases hpb with
      | false =>
        cases he : env.sharedAlloc p.size targetGen true with
        | none =>
          simp only [tryEvacuateAfterLab, sharedAllocFallback, hpro, he]
          simp [evacAllocFailure, htg.1, htg.2, hu]
        | some a =>
          simp only [tryEvacuateAfterLab, sharedAllocFallback, hpro, he]
          simp [evacCopyAndForward]
      | true =>
        by_cases hsz : p.size ≤ cfg.plabMinSizeRaw
        · have hszb : ¬ (p.size > cfg.plabMinSizeRaw) := by omega
          simp only [tryEvacuateAfterLab, sharedAllocFallback, hpro]
          simp only [hszb, decide_eq_true_eq]
          simp [evacAllocFailure, htg.1, htg.2, hu, hsz]
        · have hszb : p.size > cfg.plabMinSizeRaw := by omega
          cases he : env.sharedAlloc p.size targetGen true with
          | none =>
            simp only [tryEvacuateAfterLab, sharedAllocFallback, hpro, he]
            simp [evacAllocFailure, htg.1, htg.2, hu, hsz, hszb]
          | some a =>
            simp only [tryEvacuateAfterLab, sharedAllocFallback, hpro, he]
            simp [evacCopyAndForward, hsz, hszb]



/-! ## Claim C4: conclusive allocation failure handling -/

/-- Claim C4: when `try_evacuate_object` fails conclusively to allocate a
copy: target old and source young signals a failed promotion and returns null
without invoking the out-of-memory protocol; target old and source old
signals a failed evacuation and resolves through the out-of-memory protocol,
returning the best-known forwarding target; target young resolves through the
same protocol and returns the resolved forwarding target. -/
theorem c4_alloc_failure_paths (cfg : HeapConfig) (census : CensusConfig)
    (env : EvacEnv) (p : ObjectState) (tld : ThreadLocalData)
    (old : OldGenState) (fromRegion : RegionState) (targetGen : Affiliation)
    (slot : Option Nat) :
    (tryEvacuateObject cfg census env p tld old fromRegion targetGen
        slot).copyAllocated = none →
    ((targetGen = OLD_GENERATION → fromRegion.isYoung = true →
       (tryEvacuateObject cfg census env p tld old fromRegion targetGen
          slot).result = none ∧
       (tryEvacuateObject cfg census env p tld old fromRegion targetGen
          slot).oomProtocolInvoked = false ∧
       (tryEvacuateObject cfg census env p tld old fromRegion targetGen
          slot).old.failedPromotionCount = old.failedPromotionCount + 1) ∧
     (targetGen = OLD_GENERATION → fromRegion.isYoung = false →
       (tryEvacuateObject cfg census env p tld old fromRegion targetGen
          slot).result = some (env.resolveForwarded p.addr) ∧
       (tryEvacuateObject cfg census env p tld old fromRegion targetGen
          slot).oomProtocolInvoked = true ∧
       (tryEvacuateObject cfg census env p tld old fromRegion targetGen
          slot).allocFailureHandled = true ∧
       (tryEvacuateObject cfg census env p tld old fromRegion targetGen
          slot).old.failedEvacuation = true) ∧
     (targetGen = YOUNG_GENERATION →
       (tryEvacuateObject cfg census env p tld old fromRegion targetGen
          slot).result = some (env.resolveForwarded p.addr) ∧
       (tryEvacuateObject cfg census env p tld old fromRegion targetGen
          slot).oomProtocolInvoked = true ∧
       (tryEvacuateObject cfg census env p tld old fromRegion targetGen
          slot).allocFailureHandled = true ∧
       (tryEvacuateObject cfg census env p tld old fromRegion targetGen
          slot).old.failedEvacuation = old.failedEvacuation ∧
       (tryEvacuateObject cfg census env p tld old fromRegion targetGen
          slot).old.failedPromotionCount = old.failedPromotionCount)) := by
  obtain ⟨u, hu⟩ := labAllocPhase_old_shape cfg env targetGen tld old p.size
      (isPromotionOf targetGen fromRegion)
  simp only [tryEvacuateObject]
  generalize hL : labAllocPhase cfg env targetGen tld old p.size
      (isPromotionOf targetGen fromRegion) = L at hu ⊢
  obtain ⟨c0, tldA, oldA, hpb⟩ := L
  simp only [] at hu
  cases c0 with
  | some a =>
    intro hcp
    simp [tryEvacuateAfterLab, sharedAllocFallback, evacCopyAndForward] at hcp
  | none =>
    rcases hsp : sharedAllocFallback cfg env targetGen
        (isPromotionOf targetGen fromRegion) p.size hpb none with ⟨cf, afl, sa⟩
    simp only [tryEvacuateAfterLab, hsp]
    cases cf with
    | some a =>
      intro hcp
      simp [evacCopyAndForward] at hcp
    | none =>
      intro _
      refine ⟨?_, ?_, ?_⟩
      · intro htg hyo
        simp [evacAllocFailure, htg, hyo, hu]
      · intro htg hyo
        simp [evacAllocFailure, htg, hyo, hu]
      · intro htg
        simp [evacAllocFailure, htg, hu]

/-! ## Claim C5: age stamping of young copies during aging cycles -/

/-- Claim C5: for every object successfully copied within the young
generation during an aging cycle, the copy's recorded age equals the source
region's age plus one (`increase_object_age` is modelled from the spec, see
its doc comment). -/
theorem c5_young_copy_age (cfg : HeapConfig) (census : CensusConfig)
    (env : EvacEnv) (p : ObjectState) (tld : ThreadLocalData)
    (old : OldGenState) (fromRegion : RegionState) (slot : Option Nat)
    (hag : env.isAgingCycle = true)
    (hcp : (tryEvacuateObject cfg census env p tld old fromRegion
        YOUNG_GENERATION slot).copyAllocated.isSome = true) :
    (tryEvacuateObject cfg census env p tld old fromRegion YOUNG_GENERATION
        slot).copyAge = some (fromRegion.age + 1) := by
  simp only [tryEvacuateObject] at hcp ⊢
  generalize hL : labAllocPhase cfg env YOUNG_GENERATION tld old p.size
      (isPromotionOf YOUNG_GENERATION fromRegion) = L at hcp ⊢
  obtain ⟨c0, tldA, oldA, hpb⟩ := L
  cases c0 with
  | some a =>
    simp [tryEvacuateAfterLab, sharedAllocFallback, evacCopyAndForward,
      increaseObjectAge, hag]
  | none =>
    rcases hsp : sharedAllocFallback cfg env YOUNG_GENERATION
        (isPromotionOf YOUNG_GENERATION fromRegion) p.size hpb none with ⟨cf, afl, sa⟩
    simp only [tryEvacuateAfterLab, hsp] at hcp ⊢
    cases cf with
    | some a =>
      simp [evacCopyAndForward, increaseObjectAge, hag]
    | none =>
      simp [evacAllocFailure] at hcp



/-- Claim C3, witness: a 20-word promotion attempt with a PLAB present and
all external allocation failing declines the shared path, remains
unallocated, and signals a failed promotion. -/
theorem c3_shared_allocation_condition_witness :
    (((tryEvacuateObject testConfig testCensus failingEvacEnv testObject
          baseTld zeroOldGen youngRegion OLD_GENERATION none).sharedAttempted
        = true ↔
      ¬(isPromotionOf OLD_GENERATION youngRegion = true ∧
        (tryEvacuateObject testConfig testCensus failingEvacEnv testObject
            baseTld zeroOldGen youngRegion OLD_GENERATION none).hasPlab = true ∧
        testObject.size ≤ testConfig.plabMinSizeRaw)) ∧
     ((tryEvacuateObject testConfig testCensus failingEvacEnv testObject
          baseTld zeroOldGen youngRegion OLD_GENERATION none).sharedAttempted
        = false →
       (tryEvacuateObject testConfig testCensus failingEvacEnv testObject
          baseTld zeroOldGen youngRegion OLD_GENERATION none).copyAllocated
        = none ∧
       (tryEvacuateObject testConfig testCensus failingEvacEnv testObject
          baseTld zeroOldGen youngRegion OLD_GENERATION none).result = none ∧
       (tryEvacuateObject testConfig testCensus failingEvacEnv testObject
          baseTld zeroOldGen youngRegion OLD_GENERATION none).oomProtocolInvoked
        = false ∧
       (tryEvacuateObject testConfig testCensus failingEvacEnv testObject
          baseTld zeroOldGen youngRegion OLD_GENERATION
          none).old.failedPromotionCount = zeroOldGen.failedPromotionCount + 1)) :=
  c3_shared_allocation_condition testConfig testCensus failingEvacEnv
    testObject baseTld zeroOldGen youngRegion OLD_GENERATION none (by decide)

/-- Claim C4, witness: the three conclusive-failure paths evaluated on a
failed promotion (young source), a failed old evacuation (old source), and a
failed young evacuation. -/
theorem c4_alloc_failure_paths_witness :
    ((tryEvacuateObject testConfig testCensus failingEvacEnv testObject
        baseTld zeroOldGen youngRegion OLD_GENERATION none).result = none ∧
     (tryEvacuateObject testConfig testCensus failingEvacEnv testObject
        baseTld zeroOldGen youngRegion OLD_GENERATION none).oomProtocolInvoked
       = false ∧
     (tryEvacuateObject testConfig testCensus failingEvacEnv testObject
        baseTld zeroOldGen youngRegion OLD_GENERATION
        none).old.failedPromotionCount = zeroOldGen.failedPromotionCount + 1) ∧
    ((tryEvacuateObject testConfig testCensus failingEvacEnv testObject
        baseTld zeroOldGen oldRegion OLD_GENERATION none).result =
       some (failingEvacEnv.resolveForwarded testObject.addr) ∧
     (tryEvacuateObject testConfig testCensus failingEvacEnv testObject
        baseTld zeroOldGen oldRegion OLD_GENERATION none).oomProtocolInvoked
       = true ∧
     (tryEvacuateObject testConfig testCensus failingEvacEnv testObject
        baseTld zeroOldGen oldRegion OLD_GENERATION none).allocFailureHandled
       = true ∧
     (tryEvacuateObject testConfig testCensus failingEvacEnv testObject
        baseTld zeroOldGen oldRegion OLD_GENERATION none).old.failedEvacuation
       = true) ∧
    ((tryEvacuateObject testConfig testCensus failingEvacEnv testObject
        baseTld zeroOldGen youngRegion YOUNG_GENERATION none).result =
       some (failingEvacEnv.resolveForwarded testObject.addr) ∧
     (tryEvacuateObject testConfig testCensus failingEvacEnv testObject
        baseTld zeroOldGen youngRegion YOUNG_GENERATION none).oomProtocolInvoked
       = true ∧
     (tryEvacuateObject testConfig testCensus failingEvacEnv testObject
        baseTld zeroOldGen youngRegion YOUNG_GENERATION none).allocFailureHandled
       = true ∧
     (tryEvacuateObject testConfig testCensus failingEvacEnv testObject
        baseTld zeroOldGen youngRegion YOUNG_GENERATION
        none).old.failedEvacuation = zeroOldGen.failedEvacuation ∧
     (tryEvacuateObject testConfig testCensus failingEvacEnv testObject
        baseTld zeroOldGen youngRegion YOUNG_GENERATION
        none).old.failedPromotionCount = zeroOldGen.failedPromotionCount) :=
  ⟨(c4_alloc_failure_paths testConfig testCensus failingEvacEnv testObject
      baseTld zeroOldGen youngRegion OLD_GENERATION none (by decide)).1
      rfl (by decide),
   (c4_alloc_failure_paths testConfig testCensus failingEvacEnv testObject
      baseTld zeroOldGen oldRegion OLD_GENERATION none (by decide)).2.1
      rfl (by decide),
   (c4_alloc_failure_paths testConfig testCensus failingEvacEnv testObject
      baseTld zeroOldGen youngRegion YOUNG_GENERATION none (by decide)).2.2
      rfl⟩

/-- Claim C5, witness: a 20-word object from a region of age 2, copied within
young during an aging cycle, carries age 3. -/
theorem c5_young_copy_age_witness :
    (tryEvacuateObject testConfig testCensus grantingGclabEnv testObject
        baseTld zeroOldGen youngRegion YOUNG_GENERATION none).copyAge =
      some (youngRegion.age + 1) :=
  c5_young_copy_age testConfig testCensus grantingGclabEnv testObject baseTld
    zeroOldGen youngRegion none (by decide) (by decide)



/-! ## Claim C2: the forwarding race installs exactly one canonical copy -/

/-- What the source guarantees for a thread that loses the forwarding race
(lines 321-358): it did not win; a shared copy is overwritten with a filler
object; a LAB copy is rolled back into the thread's buffer (the GCLAB for
young targets, the PLAB for old targets, with the promoted-bytes counter
decremented for promotions). -/
def loserResolved (cfg : HeapConfig) (t : RaceAttempt) (o : CasOutcome) : Prop :=
  o.won = false ∧
  (t.allocFromLab = false → o.filledWithFiller = true ∧ o.tld = t.tld) ∧
  (t.allocFromLab = true →
    o.filledWithFiller = false ∧
    (t.targetGen = YOUNG_GENERATION →
      o.tld.gclab = plabUndoAllocation t.tld.gclab t.size) ∧
    (t.targetGen = OLD_GENERATION →
      o.tld.plab = t.tld.plab.map (fun pl => plabUndoAllocation pl t.size) ∧
      (t.isPromotion = true →
        o.tld.plabPromoted = t.tld.plabPromoted - t.size * cfg.heapWordSize) ∧
      (t.isPromotion = false → o.tld.plabPromoted = t.tld.plabPromoted)))

/-- A CAS against an already-installed forwardee loses: it returns the
installed copy, leaves the slot and old-generation state unchanged, and
resolves the stale copy per the source. -/
theorem casAndResolve_loser (cfg : HeapConfig) (census : CensusConfig)
    (t : RaceAttempt) (old : OldGenState) (w : Nat) (hne : w ≠ t.copyAddr) :
    (casAndResolve cfg census t.targetGen t.isPromotion t.allocFromLab t.size
        t.copyAddr t.fromRegionIsYoung t.tld old (some w)).returned = w ∧
    (casAndResolve cfg census t.targetGen t.isPromotion t.allocFromLab t.size
        t.copyAddr t.fromRegionIsYoung t.tld old (some w)).slot = some w ∧
    (casAndResolve cfg census t.targetGen t.isPromotion t.allocFromLab t.size
        t.copyAddr t.fromRegionIsYoung t.tld old (some w)).old = old ∧
    loserResolved cfg t
      (casAndResolve cfg census t.targetGen t.isPromotion t.allocFromLab t.size
        t.copyAddr t.fromRegionIsYoung t.tld old (some w)) := by
  rcases t with ⟨caddr, tg, ipro, afl, fry, size, tld⟩
  simp only at hne
  cases afl <;> cases tg <;> cases ipro <;>
    simp [casAndResolve, tryUpdateForwardee, loserResolved, hne]

/-- A CAS against an empty forwarding slot wins and installs our copy. -/
theorem casAndResolve_winner (cfg : HeapConfig) (census : CensusConfig)
    (tg : Affiliation) (ipro afl : Bool) (size caddr : Nat) (fry : Bool)
    (tld : ThreadLocalData) (old : OldGenState) :
    (casAndResolve cfg census tg ipro afl size caddr fry tld old none).won
      = true ∧
    (casAndResolve cfg census tg ipro afl size caddr fry tld old none).returned
      = caddr ∧
    (casAndResolve cfg census tg ipro afl size caddr fry tld old none).slot
      = some caddr ∧
    (casAndResolve cfg census tg ipro afl size caddr fry tld old none).filledWithFiller
      = false := by
  simp [casAndResolve, tryUpdateForwardee]

/-- Once a forwardee is installed, every further racing thread loses: the
slot never changes again, the old-generation state is untouched, and every
loser returns the installed copy with its stale copy resolved. -/
theorem runRace_from_installed (cfg : HeapConfig) (census : CensusConfig)
    (w : Nat) :
    ∀ (l : List RaceAttempt) (old : OldGenState),
      (∀ t ∈ l, t.copyAddr ≠ w) →
      (runRace cfg census old (some w) l).1 = some w ∧
      (runRace cfg census old (some w) l).2.1 = old ∧
      (∀ o ∈ (runRace cfg census old (some w) l).2.2,
        o.won = false ∧ o.returned = w) ∧
      List.Forall₂ (loserResolved cfg) l (runRace cfg census old (some w) l).2.2 := by
  intro l
  induction l with
  | nil => intro old _; simp [runRace]
  | cons t rest ih =>
    intro old hd
    have hne : w ≠ t.copyAddr := fun h => hd t (by simp) h.symm
    obtain ⟨hr, hs, hold, hlr⟩ := casAndResolve_loser cfg census t old w hne
    have hrest := ih (casAndResolve cfg census t.targetGen t.isPromotion
        t.allocFromLab t.size t.copyAddr t.fromRegionIsYoung t.tld old
        (some w)).old (fun u hu => hd u (by simp [hu]))
    simp only [runRace, hs]
    refine ⟨hrest.1, hrest.2.1.trans hold, ?_, ?_⟩
    · intro o ho
      rcases List.mem_cons.mp ho with h | h
      · subst h; exact ⟨hlr.1, hr⟩
      · exact hrest.2.2.1 o h
    · exact List.Forall₂.cons hlr hrest.2.2.2

/-- Claim C2: for an object evacuated concurrently by several threads (each
holding its own allocated copy, all copies at distinct addresses), the
linearized forwarding CAS installs exactly one canonical copy - the first
CAS wins and the slot never changes afterwards; every thread returns the
winner's copy; every losing thread's copy is rolled back into its
thread-local buffer (with promoted-byte counters decremented for promotions)
or, for shared allocations, overwritten with a filler object. -/
theorem c2_forwarding_race_single_copy (cfg : HeapConfig)
    (census : CensusConfig) (old : OldGenState) (a : RaceAttempt)
    (rest : List RaceAttempt)
    (hdist : ∀ t ∈ rest, t.copyAddr ≠ a.copyAddr) :
    (runRace cfg census old none (a :: rest)).1 = some a.copyAddr ∧
    (∀ o ∈ (runRace cfg census old none (a :: rest)).2.2,
      o.returned = a.copyAddr) ∧
    ((runRace cfg census old none (a :: rest)).2.2.countP
        (fun o => o.won)) = 1 ∧
    List.Forall₂ (loserResolved cfg) rest
      ((runRace cfg census old none (a :: rest)).2.2.tail) := by
  obtain ⟨hwon, hret, hslot, _⟩ := casAndResolve_winner cfg census a.targetGen
    a.isPromotion a.allocFromLab a.size a.copyAddr a.fromRegionIsYoung a.tld old
  have hrest := runRace_from_installed cfg census a.copyAddr rest
    (casAndResolve cfg census a.targetGen a.isPromotion a.allocFromLab a.size
      a.copyAddr a.fromRegionIsYoung a.tld old none).old hdist
  simp only [runRace, hslot]
  refine ⟨hrest.1, ?_, ?_, ?_⟩
  · intro o ho
    rcases List.mem_cons.mp ho with h | h
    · subst h; exact hret
    · exact (hrest.2.2.1 o h).2
  · rw [List.countP_cons]
    have hzero : (runRace cfg census (casAndResolve cfg census a.targetGen
        a.isPromotion a.allocFromLab a.size a.copyAddr a.fromRegionIsYoung
        a.tld old none).old (some a.copyAddr) rest).2.2.countP
        (fun o => o.won) = 0 := by
      rw [List.countP_eq_zero]
      intro o ho
      simp [(hrest.2.2.1 o ho).1]
    rw [hzero]
    simp [hwon]
  · simpa using hrest.2.2.2



/-! ## Claim C9: coalesce-and-fill and old-generation parseability -/

/-- Claim C9: in both cycle-completion paths the coalesce-and-fill pass runs
if and only if the old generation is not parseable at completion time, the
pass itself marks the old generation parseable, and after either completion
routine returns the old generation is parseable. -/
theorem c9_completion_parseable (env : CycleEnv) (hs : HeapState) :
    (completeDegeneratedCycle env hs).coalesceRan = !hs.old.parseable ∧
    (completeDegeneratedCycle env hs).heap.old.parseable = true ∧
    (completeConcurrentCycle env hs).coalesceRan = !hs.old.parseable ∧
    (completeConcurrentCycle env hs).heap.old.parseable = true ∧
    (coalesceAndFillOldRegions hs).old.parseable = true := by
  have hbal : ∀ h : HeapState, (balanceGenerations env h).2.old.parseable =
      h.old.parseable := by
    intro h
    simp only [balanceGenerations]
    split_ifs <;> simp
  by_cases hm : hs.concOldMarkInProgress = true <;>
    by_cases hp : hs.old.parseable = true <;>
      simp only [Bool.not_eq_true] at hm hp <;>
      simp [completeDegeneratedCycle, completeConcurrentCycle,
        resetGenerationReserves, coalesceAndFillOldRegions, hbal, hm, hp]

/-! ## Claim C10: mark-word guards in `evacuate_object` -/

/-- Claim C10: in `evacuate_object`, an object in a young region during a
young cycle whose mark word is displaced is never considered for promotion,
even when its combined region-plus-object age meets the tenuring threshold -
it is evacuated within the young generation instead; and an object whose
mark word already indicates it is forwarded yields the existing forwardee
without any copy attempt. -/
theorem c10_evacuate_object_mark_guards (cfg : HeapConfig)
    (census : CensusConfig) (env : EvacEnv) (p : ObjectState)
    (tld : ThreadLocalData) (old : OldGenState) (r : RegionState)
    (slot : Option Nat) (hoom : tld.oomDuringEvac = false)
    (hact : env.activeGenIsYoung = true)
    (hyoung : r.affiliation = YOUNG_GENERATION) :
    (p.isMarked = true →
      (evacuateObject cfg census env p tld old r slot).result =
        some (env.resolveForwarded p.addr) ∧
      (evacuateObject cfg census env p tld old r slot).copyAttempted = false ∧
      (evacuateObject cfg census env p tld old r slot).promotionAttempted
        = false) ∧
    (p.isMarked = false → p.hasDisplacedMark = true →
      cfg.tenuringThreshold ≤ r.age + p.age →
      (evacuateObject cfg census env p tld old r slot).promotionAttempted
        = false ∧
      (evacuateObject cfg census env p tld old r slot).copyAttempted = true ∧
      (evacuateObject cfg census env p tld old r slot).result =
        (tryEvacuateObject cfg census env p tld old r YOUNG_GENERATION
          slot).result) := by
  constructor
  · intro hmk
    simp [evacuateObject, hoom, hact, hyoung, hmk]
  · intro hmk hdm hage
    simp [evacuateObject, hoom, hact, hyoung, hmk, hdm]




/-- Claim C2, witness: a three-thread race (one PLAB-sourced loser, one
shared-allocation loser) in which the first thread's 8-word copy becomes the
single canonical forwardee. -/
theorem c2_forwarding_race_single_copy_witness :
    (runRace testConfig testCensus zeroOldGen none
        (raceWinner :: [raceLoserLab, raceLoserShared])).1 =
      some raceWinner.copyAddr ∧
    (∀ o ∈ (runRace testConfig testCensus zeroOldGen none
        (raceWinner :: [raceLoserLab, raceLoserShared])).2.2,
      o.returned = raceWinner.copyAddr) ∧
    ((runRace testConfig testCensus zeroOldGen none
        (raceWinner :: [raceLoserLab, raceLoserShared])).2.2.countP
        (fun o => o.won)) = 1 ∧
    List.Forall₂ (loserResolved testConfig) [raceLoserLab, raceLoserShared]
      ((runRace testConfig testCensus zeroOldGen none
        (raceWinner :: [raceLoserLab, raceLoserShared])).2.2.tail) :=
  c2_forwarding_race_single_copy testConfig testCensus zeroOldGen raceWinner
    [raceLoserLab, raceLoserShared] (by decide)

/-- Claim C10, witness: a forwarded object yields the existing forwardee with
no copy attempt; a displaced-header object of sufficient age is evacuated
within young with no promotion attempt. -/
theorem c10_evacuate_object_mark_guards_witness :
    ((evacuateObject testConfig testCensus failingEvacEnv markedObject baseTld
        zeroOldGen youngRegion none).result =
      some (failingEvacEnv.resolveForwarded markedObject.addr) ∧
     (evacuateObject testConfig testCensus failingEvacEnv markedObject baseTld
        zeroOldGen youngRegion none).copyAttempted = false ∧
     (evacuateObject testConfig testCensus failingEvacEnv markedObject baseTld
        zeroOldGen youngRegion none).promotionAttempted = false) ∧
    ((evacuateObject testConfig testCensus failingEvacEnv displacedObject
        baseTld zeroOldGen youngRegion none).promotionAttempted = false ∧
     (evacuateObject testConfig testCensus failingEvacEnv displacedObject
        baseTld zeroOldGen youngRegion none).copyAttempted = true ∧
     (evacuateObject testConfig testCensus failingEvacEnv displacedObject
        baseTld zeroOldGen youngRegion none).result =
       (tryEvacuateObject testConfig testCensus failingEvacEnv displacedObject
         baseTld zeroOldGen youngRegion YOUNG_GENERATION none).result) :=
  ⟨(c10_evacuate_object_mark_guards testConfig testCensus failingEvacEnv
      markedObject baseTld zeroOldGen youngRegion none (by decide) (by decide)
      (by decide)).1 (by decide),
   (c10_evacuate_object_mark_guards testConfig testCensus failingEvacEnv
      displacedObject baseTld zeroOldGen youngRegion none (by decide)
      (by decide) (by decide)).2 (by decide) (by decide) (by decide)⟩


end ShenGen
